import Mathlib

/-!
Verification of the Sample-Superstore dashboard pipeline (src/dashboard.py).

The relevant pipeline is: schema validation (required columns), the date-range
filter, the three-level Region/State/City multiselect filter with its 8-branch
case split, and the three aggregation views (Category, Region, month-year time
series).  All definitions below are shallow embeddings of the corresponding
pandas code: a data frame is a `List Row`, `isin` is pandas membership (null
never matches), and `groupSum` is `groupby(...)["Sales"].sum()` with pandas's
default behaviour of dropping null keys and sorting group keys ascending.
Sales amounts are modelled as exact numbers (the pipeline's logic is
independent of the numeric representation).
-/

/-- A calendar date, as produced by `pd.to_datetime` (time of day irrelevant
for this pipeline). -/
structure Date where
  year : Nat
  month : Nat
  day : Nat
deriving DecidableEq, Repr

/-- Strict chronological comparison of dates (pandas datetime `<`). -/
def Date.blt (a b : Date) : Bool :=
  decide (a.year < b.year) ||
    (decide (a.year = b.year) &&
      (decide (a.month < b.month) ||
        (decide (a.month = b.month) && decide (a.day < b.day))))

/-- Chronological comparison of dates (pandas datetime `<=`). -/
def Date.ble (a b : Date) : Bool :=
  decide (a.year < b.year) ||
    (decide (a.year = b.year) &&
      (decide (a.month < b.month) ||
        (decide (a.month = b.month) && decide (a.day ≤ b.day))))

/-- One row of the data frame.  `order_date` is `none` when
`pd.to_datetime(..., errors="coerce")` produced `NaT`; the categorical columns
are `none` when the cell is null. -/
structure Row where
  order_date : Option Date
  region : Option String
  state : Option String
  city : Option String
  category : Option String
  sales : Int
deriving DecidableEq, Repr

/-- Pandas `Series.isin(sel)` on one cell: a null cell never matches, a string
cell matches by case-sensitive equality with some member of `sel`. -/
def isin (sel : List String) (v : Option String) : Bool :=
  match v with
  | some s => decide (s ∈ sel)
  | none => false

/-- `df2 = df if not region else df[df["Region"].isin(region)]`
(dashboard.py line 112). -/
def df2 (df : List Row) (region : List String) : List Row :=
  if region.isEmpty then df else df.filter (fun r => isin region r.region)

/-- `df3 = df2 if not state else df2[df2["State"].isin(state)]`
(dashboard.py line 116). -/
def df3 (df : List Row) (region state : List String) : List Row :=
  if state.isEmpty then df2 df region
  else (df2 df region).filter (fun r => isin state r.state)

/-- The 8-branch case split computing `filtered_df`
(dashboard.py lines 122-141), transliterated branch by branch: Python's
`not xs` on a list is `xs.isEmpty`, and `xs and ys` demands both non-empty. -/
def filtered_df (df : List Row) (region state city : List String) : List Row :=
  if region.isEmpty && state.isEmpty && city.isEmpty then
    df
  else if state.isEmpty && city.isEmpty then
    df.filter (fun r => isin region r.region)
  else if region.isEmpty && city.isEmpty then
    df.filter (fun r => isin state r.state)
  else if !state.isEmpty && !city.isEmpty then
    (df3 df region state).filter (fun r => isin state r.state && isin city r.city)
  else if !region.isEmpty && !city.isEmpty then
    (df3 df region state).filter (fun r => isin region r.region && isin city r.city)
  else if !region.isEmpty && !state.isEmpty then
    (df3 df region state).filter (fun r => isin region r.region && isin state r.state)
  else if !city.isEmpty then
    (df3 df region state).filter (fun r => isin city r.city)
  else
    (df3 df region state).filter
      (fun r => isin region r.region && isin state r.state && isin city r.city)

/-- The single conjunctive predicate of spec section 4.1:
`result = row in D : (R empty OR row.region in R) AND (S empty OR row.state in S)
AND (C empty OR row.city in C)`.  Reference definition for the refinement
claims; `filtered_df` is proved equal to it. -/
def refFilter (df : List Row) (R S C : List String) : List Row :=
  df.filter (fun r =>
    (R.isEmpty || isin R r.region) &&
    (S.isEmpty || isin S r.state) &&
    (C.isEmpty || isin C r.city))

/-- Lexicographic (code-point) comparison of character lists; this is the
string order used by Python `sorted` and by pandas when sorting keys. -/
def charsLt : List Char → List Char → Bool
  | [], [] => false
  | [], _ :: _ => true
  | _ :: _, [] => false
  | a :: as, b :: bs =>
    decide (a.val < b.val) || (decide (a.val = b.val) && charsLt as bs)

/-- Code-point order on strings (`a ≤ b` iff not `b < a`). -/
def strLe (a b : String) : Bool := !(charsLt b.data a.data)

/-- Python `sorted(...)` on a list of strings. -/
def sortStrings (l : List String) : List String :=
  List.insertionSort (fun a b => strLe a b = true) l

/-- `sorted(df["Region"].dropna().unique())` (line 111): Region candidates,
computed from the date-filtered frame before any selection. -/
def regionOptions (df : List Row) : List String :=
  sortStrings (df.filterMap Row.region).dedup

/-- `sorted(df2["State"].dropna().unique())` (line 115): State candidates,
computed after the Region selection only. -/
def stateOptions (df : List Row) (region : List String) : List String :=
  sortStrings ((df2 df region).filterMap Row.state).dedup

/-- `sorted(df3["City"].dropna().unique())` (line 119): City candidates,
computed after the Region and State selections. -/
def cityOptions (df : List Row) (region state : List String) : List String :=
  sortStrings ((df3 df region state).filterMap Row.city).dedup

/-- The user-facing failures of the script: `st.error`/`st.warning` followed
by `st.stop()` (spec section 7 names them `MissingColumns` and
`InvalidRange`). -/
inductive DashError where
  | missingColumns (cols : List String)
  | invalidRange
deriving DecidableEq, Repr

/-- `required_cols` (line 76). -/
def required_cols : List String :=
  ["Order Date", "Region", "State", "City", "Category", "Sales"]

/-- `sorted(required_cols - set(df.columns))` (lines 77 and 80): the absent
required columns, in sorted order. -/
def missingCols (columns : List String) : List String :=
  sortStrings (required_cols.filter (fun c => !(decide (c ∈ columns)))).dedup

/-- Lines 76-83: when a required column is missing, report the sorted list of
missing columns and stop the script. -/
def validateColumns (columns : List String) : Except DashError Unit :=
  if (missingCols columns).isEmpty then Except.ok ()
  else Except.error (DashError.missingColumns (missingCols columns))

/-- `df.dropna(subset=["Order Date"])` (line 90): rows whose order date failed
to parse are dropped before any range comparison. -/
def dropNaDates (df : List Row) : List Row :=
  df.filter (fun r => r.order_date.isSome)

/-- The date-range step (lines 89-105): drop null-dated rows; if
`date1 > date2`, warn and stop (`InvalidRange`); otherwise keep exactly the
rows with `date1 <= Order Date <= date2` (both bounds inclusive). -/
def dateFilter (df : List Row) (date1 date2 : Date) : Except DashError (List Row) :=
  let dfc := dropNaDates df
  if Date.blt date2 date1 then Except.error DashError.invalidRange
  else Except.ok (dfc.filter (fun r =>
    match r.order_date with
    | some d => date1.ble d && d.ble date2
    | none => false))

/-- Sum of the `Sales` column. -/
def salesSum (df : List Row) : Int := (df.map Row.sales).sum

/-- The group keys pandas produces: distinct non-null keys, sorted ascending
(`groupby` default `sort=True`, `dropna=True`). -/
def groupKeys (key : Row → Option String) (df : List Row) : List String :=
  sortStrings (df.filterMap key).dedup

/-- `df.groupby(key)["Sales"].sum()` with pandas defaults: rows with a null
key are dropped, one output row per distinct key, keys sorted ascending. -/
def groupSum (key : Row → Option String) (df : List Row) : List (String × Int) :=
  (groupKeys key df).map
    (fun k => (k, salesSum (df.filter (fun r => decide (key r = some k)))))

/-- `category_df = filtered_df.groupby(by=["Category"], as_index=False)["Sales"].sum()`
(line 144). -/
def category_df (df : List Row) : List (String × Int) :=
  groupSum Row.category df

/-- `region_sum = filtered_df.groupby(by=["Region"], as_index=False)["Sales"].sum()`
(line 160). -/
def region_sum (df : List Row) : List (String × Int) :=
  groupSum Row.region df

/-- The `%b` month abbreviation used by `strftime`. -/
def monthAbbrev : Nat → String
  | 1 => "Jan"
  | 2 => "Feb"
  | 3 => "Mar"
  | 4 => "Apr"
  | 5 => "May"
  | 6 => "Jun"
  | 7 => "Jul"
  | 8 => "Aug"
  | 9 => "Sep"
  | 10 => "Oct"
  | 11 => "Nov"
  | 12 => "Dec"
  | _ => ""

/-- `strftime("%Y-%b")` of the month period of a date, e.g. `2024-Jan`. -/
def fmtMonth (d : Date) : String :=
  toString d.year ++ "-" ++ monthAbbrev d.month

/-- Lines 192-199: `month_year = Order Date.dt.to_period("M")`, then
`groupby(month_year.dt.strftime("%Y-%b"))["Sales"].sum()` — the group key is
the formatted display string, so pandas sorts the output by that string. -/
def linechart (df : List Row) : List (String × Int) :=
  groupSum (fun r => r.order_date.map fmtMonth) df

/-- Chronological order on (year, month) pairs. -/
def ymLe (a b : Nat × Nat) : Bool :=
  decide (a.1 < b.1) || (decide (a.1 = b.1) && decide (a.2 ≤ b.2))

/-- Modelled from the spec (section 4.3): the distinct (year, month) pairs of
the data, sorted chronologically by the underlying pair. -/
def chronoKeys (df : List Row) : List (Nat × Nat) :=
  List.insertionSort (fun a b => ymLe a b = true)
    (df.filterMap (fun r => r.order_date.map (fun d => (d.year, d.month)))).dedup

/-- Modelled from the spec (section 4.3): the Time-series view as specified —
group by the order date truncated to (year, month), sum sales, one row per
distinct (year, month), sorted chronologically by the pair rather than by the
display string. -/
def chronoLinechart (df : List Row) : List ((Nat × Nat) × Int) :=
  (chronoKeys df).map (fun ym =>
    (ym, salesSum (df.filter (fun r =>
      decide (r.order_date.map (fun d => (d.year, d.month)) = some ym)))))

/-- The three aggregated views the dashboard renders and exports. -/
structure Views where
  categoryView : List (String × Int)
  regionView : List (String × Int)
  timeView : List (String × Int)
deriving DecidableEq, Repr

/-- The whole per-interaction pipeline of dashboard.py: column validation
(stop on missing columns), date filter (stop on invalid range), hierarchical
filter, then the three aggregation views. -/
def pipeline (columns : List String) (df : List Row) (date1 date2 : Date)
    (region state city : List String) : Except DashError Views :=
  match validateColumns columns with
  | Except.error e => Except.error e
  | Except.ok _ =>
    match dateFilter df date1 date2 with
    | Except.error e => Except.error e
    | Except.ok dfd =>
      Except.ok
        ⟨category_df (filtered_df dfd region state city),
         region_sum (filtered_df dfd region state city),
         linechart (filtered_df dfd region state city)⟩

/-! ### Helper lemmas about the filter engine -/

theorem df2_eq (df : List Row) (R : List String) :
    df2 df R = df.filter (fun r => R.isEmpty || isin R r.region) := by
  cases h : R.isEmpty <;> simp [df2, h]

theorem df3_eq (df : List Row) (R S : List String) :
    df3 df R S = df.filter (fun r =>
      (R.isEmpty || isin R r.region) && (S.isEmpty || isin S r.state)) := by
  cases h : S.isEmpty <;>
    simp [df3, h, df2_eq, List.filter_filter, Bool.and_comm]

theorem filtered_df_eq_ref (df : List Row) (R S C : List String) :
    filtered_df df R S C = refFilter df R S C := by
  cases hR : R.isEmpty <;> cases hS : S.isEmpty <;> cases hC : C.isEmpty <;>
    simp only [filtered_df, refFilter, df3_eq, hR, hS, hC, Bool.not_true,
      Bool.not_false, Bool.true_and, Bool.false_and, Bool.and_true,
      Bool.and_false, Bool.true_or, Bool.false_or, Bool.or_true, Bool.or_false,
      if_true, if_false, List.filter_filter, Bool.and_self,
      ite_true, ite_false, Bool.false_eq_true, Bool.true_eq_false,
      List.filter_true] <;>
    (apply List.filter_congr; intro r _;
     cases isin R r.region <;> cases isin S r.state <;> cases isin C r.city <;> rfl)

/-! ### Helper lemmas about sorting and grouping -/

theorem mem_sortStrings {l : List String} {v : String} :
    v ∈ sortStrings l ↔ v ∈ l :=
  List.mem_insertionSort _

theorem nodup_sortStrings {l : List String} (h : l.Nodup) :
    (sortStrings l).Nodup :=
  (List.perm_insertionSort _ l).nodup_iff.mpr h

theorem groupKeys_nodup (key : Row → Option String) (df : List Row) :
    (groupKeys key df).Nodup :=
  nodup_sortStrings (List.nodup_dedup _)

theorem mem_groupKeys {key : Row → Option String} {df : List Row} {v : String} :
    v ∈ groupKeys key df ↔ ∃ r ∈ df, key r = some v := by
  rw [groupKeys, mem_sortStrings, List.mem_dedup, List.mem_filterMap]

/-- Summation over the `Sales` column. -/
def sumSnd {α : Type} (l : List (α × Int)) : Int := (l.map Prod.snd).sum

theorem salesSum_cons (r : Row) (l : List Row) :
    salesSum (r :: l) = r.sales + salesSum l := by
  simp [salesSum]

theorem salesSum_filter_or (p q : Row → Bool) (df : List Row)
    (hdisj : ∀ r, ¬(p r = true ∧ q r = true)) :
    salesSum (df.filter (fun r => p r || q r)) =
      salesSum (df.filter p) + salesSum (df.filter q) := by
  induction df with
  | nil => simp [salesSum]
  | cons x xs ih =>
    cases hp : p x <;> cases hq : q x <;>
      simp_all [List.filter_cons, salesSum_cons] <;> omega

theorem isin_cons (k : String) (ks : List String) (v : Option String) :
    isin (k :: ks) v = (decide (v = some k) || isin ks v) := by
  cases v <;> simp [isin, List.mem_cons]

theorem salesSum_keys (key : Row → Option String) (df : List Row) :
    ∀ ks : List String, ks.Nodup →
      (ks.map (fun k =>
        salesSum (df.filter (fun r => decide (key r = some k))))).sum =
        salesSum (df.filter (fun r => isin ks (key r))) := by
  intro ks
  induction ks with
  | nil =>
    intro _
    have h : df.filter (fun r => isin [] (key r)) = [] := by
      apply List.filter_eq_nil_iff.mpr
      intro r _
      cases h : key r <;> simp [isin]
    simp [h, salesSum]
  | cons k ks ih =>
    intro hnd
    have hrw : df.filter (fun r => isin (k :: ks) (key r)) =
        df.filter (fun r => decide (key r = some k) || isin ks (key r)) := by
      apply List.filter_congr
      intro r _
      exact isin_cons k ks (key r)
    rw [hrw, salesSum_filter_or _ _ _ ?_, List.map_cons, List.sum_cons,
      ih hnd.of_cons]
    intro r ⟨h1, h2⟩
    have hk : key r = some k := of_decide_eq_true h1
    rw [hk] at h2
    simp only [isin] at h2
    exact hnd.not_mem (of_decide_eq_true h2)

theorem groupSum_total (key : Row → Option String) (df : List Row) :
    sumSnd (groupSum key df) = salesSum (df.filter (fun r => (key r).isSome)) := by
  rw [sumSnd, groupSum, List.map_map]
  have h1 : (Prod.snd ∘ fun k =>
      (k, salesSum (df.filter (fun r => decide (key r = some k))))) =
      fun k => salesSum (df.filter (fun r => decide (key r = some k))) := rfl
  rw [h1, salesSum_keys key df _ (groupKeys_nodup key df)]
  apply congrArg
  apply List.filter_congr
  intro r hr
  cases h : key r with
  | none => simp [isin]
  | some v =>
    simp only [isin, Option.isSome_some]
    exact decide_eq_true (mem_groupKeys.mpr ⟨r, hr, h⟩)

/-! ### Null-keyed rows, idempotence, the date filter and the pipeline -/

theorem filterMap_key_filter_isSome (key : Row → Option String) (df : List Row) :
    (df.filter (fun r => (key r).isSome)).filterMap key = df.filterMap key := by
  induction df with
  | nil => rfl
  | cons x xs ih =>
    cases h : key x <;> simp [List.filter_cons, List.filterMap_cons, h, ih]

theorem groupSum_drop_null_keys (key : Row → Option String) (df : List Row) :
    groupSum key (df.filter (fun r => (key r).isSome)) = groupSum key df := by
  rw [groupSum, groupSum, groupKeys, groupKeys, filterMap_key_filter_isSome]
  apply List.map_congr_left
  intro k _
  rw [List.filter_filter]
  congr 1
  refine congrArg salesSum ?_
  apply List.filter_congr
  intro r _
  cases h : key r <;> simp [h]

theorem refFilter_idem (df : List Row) (R S C : List String) :
    refFilter (refFilter df R S C) R S C = refFilter df R S C := by
  simp only [refFilter, List.filter_filter]
  apply List.filter_congr
  intro r _
  exact Bool.and_self _

theorem mem_refFilter {df : List Row} {R S C : List String} {r : Row} :
    r ∈ refFilter df R S C ↔ r ∈ df ∧
      ((R.isEmpty || isin R r.region) &&
       (S.isEmpty || isin S r.state) &&
       (C.isEmpty || isin C r.city)) = true := by
  rw [refFilter, List.mem_filter]

theorem dateFilter_gt {df : List Row} {d1 d2 : Date}
    (h : Date.blt d2 d1 = true) :
    dateFilter df d1 d2 = Except.error DashError.invalidRange := by
  simp [dateFilter, h]

theorem dateFilter_ok_iff {df : List Row} {d1 d2 : Date} {out : List Row}
    (h : dateFilter df d1 d2 = Except.ok out) (r : Row) :
    r ∈ out ↔ r ∈ df ∧
      ∃ d, r.order_date = some d ∧ d1.ble d = true ∧ d.ble d2 = true := by
  rw [dateFilter] at h
  by_cases hb : Date.blt d2 d1 = true
  · simp [hb] at h
  · simp only [hb, if_neg, Bool.false_eq_true, if_false, Except.ok.injEq] at h
    subst h
    rw [List.mem_filter, dropNaDates, List.mem_filter]
    cases hd : r.order_date <;> simp [hd]

theorem pipeline_column_error {columns : List String} {e : DashError}
    (hv : validateColumns columns = Except.error e)
    (df : List Row) (d1 d2 : Date) (R S C : List String) :
    pipeline columns df d1 d2 R S C = Except.error e := by
  simp [pipeline, hv]

theorem pipeline_date_error {columns : List String} {df : List Row}
    {d1 d2 : Date} {e : DashError}
    (hv : validateColumns columns = Except.ok ())
    (hd : dateFilter df d1 d2 = Except.error e)
    (R S C : List String) :
    pipeline columns df d1 d2 R S C = Except.error e := by
  simp [pipeline, hv, hd]

theorem mem_missingCols {columns : List String} {c : String} :
    c ∈ missingCols columns ↔ c ∈ required_cols ∧ c ∉ columns := by
  rw [missingCols, mem_sortStrings, List.mem_dedup, List.mem_filter]
  simp

/-! ### Concrete data (the spec section 8 scenario and witness inputs) -/

def sampleRow1 : Row :=
  ⟨some ⟨2024, 1, 15⟩, some "East", some "NY", some "NYC", some "Furniture", 100⟩

def sampleRow2 : Row :=
  ⟨some ⟨2024, 2, 10⟩, some "West", some "CA", some "LA", some "Tech", 200⟩

def sampleRow3 : Row :=
  ⟨some ⟨2024, 1, 20⟩, some "East", some "NY", some "NYC", some "Tech", 50⟩

def sampleDf : List Row := [sampleRow1, sampleRow2, sampleRow3]

theorem linechart_total (df : List Row) :
    sumSnd (linechart df) =
      salesSum (df.filter (fun r => r.order_date.isSome)) := by
  rw [linechart, groupSum_total]
  refine congrArg salesSum ?_
  apply List.filter_congr
  intro r _
  cases h : r.order_date <;> simp [h]

/-! ### The claims -/

/-- C1: for every dataset and all Region/State/City selection sets (hence for
all 8 emptiness combinations), the 8-branch case-split filter of
dashboard.py lines 122-141 produces exactly the rows of the single
conjunctive predicate of spec section 4.1. -/
theorem c1_case_split_equals_predicate (df : List Row) (R S C : List String) :
    filtered_df df R S C = refFilter df R S C :=
  filtered_df_eq_ref df R S C

/-- C7: applying the hierarchical filter twice with the same selections gives
the same result as applying it once. -/
theorem c7_filter_idempotent (df : List Row) (R S C : List String) :
    filtered_df (filtered_df df R S C) R S C = filtered_df df R S C := by
  rw [filtered_df_eq_ref, filtered_df_eq_ref, refFilter_idem]

/-- C8: filtering with all three selections empty returns the dataset
unchanged, row order included. -/
theorem c8_empty_selections_identity (df : List Row) :
    filtered_df df [] [] [] = df := by
  simp [filtered_df]

/-- C9: when the Region selection is non-empty, every row of the filtered
result carries a region value belonging to the selection; rows with a region
outside the selection, or with a null region, never appear. -/
theorem c9_region_soundness (df : List Row) (R S C : List String)
    (hR : R ≠ []) :
    ∀ r ∈ filtered_df df R S C, ∃ v, r.region = some v ∧ v ∈ R := by
  intro r hr
  rw [filtered_df_eq_ref] at hr
  have h := (mem_refFilter.mp hr).2
  have hRe : R.isEmpty = false := by simpa [List.isEmpty_iff] using hR
  rw [hRe] at h
  simp only [Bool.false_or, Bool.and_eq_true] at h
  obtain ⟨⟨h1, _⟩, _⟩ := h
  cases hv : r.region with
  | none => rw [hv] at h1; simp [isin] at h1
  | some v =>
    rw [hv] at h1
    exact ⟨v, rfl, of_decide_eq_true h1⟩

theorem c9_witness :
    ∃ v, sampleRow1.region = some v ∧ v ∈ ["East"] :=
  c9_region_soundness sampleDf ["East"] [] [] (by decide) sampleRow1 (by decide)

/-- C2: refuted on the code — the time-series view groups by the
strftime("%Y-%b") display string and pandas sorts the groups by that string,
so the output is alphabetical, not chronological.  With sales in 2024-Jan and
2024-Feb the code emits the February row first ("2024-Feb" sorts before
"2024-Jan" as a string), while the chronological view modelled from the spec
puts January first: the two key sequences disagree on the same groups. -/
theorem c2_linechart_alphabetical_not_chronological :
    linechart sampleDf = [("2024-Feb", 200), ("2024-Jan", 150)] ∧
    chronoLinechart sampleDf = [((2024, 1), 150), ((2024, 2), 200)] ∧
    (linechart sampleDf).map Prod.fst ≠
      (chronoLinechart sampleDf).map (fun p => fmtMonth ⟨p.1.1, p.1.2, 1⟩) := by
  exact ⟨by decide, by decide, by decide⟩

def nullCatRow : Row :=
  ⟨some ⟨2024, 3, 5⟩, some "East", some "NY", some "NYC", none, 100⟩

/-- C3 counterexample: a filtered dataset holding one row with a null Category
and sales 100 has a Category view summing to 0 (pandas drops the null-keyed
row), not to the dataset total 100 — the conservation law as claimed (null
keys included) fails. -/
theorem c3_counterexample :
    sumSnd (category_df (filtered_df [nullCatRow] [] [] [])) ≠
      salesSum (filtered_df [nullCatRow] [] [] []) := by
  decide

/-- C3 amended: each aggregation view conserves the sales total of the rows
whose grouping key is non-null (hence the claimed law holds exactly when no
row has a null key for that view); the time-series view of the actual
pipeline conserves the full filtered total, because rows with unparseable
order dates were already dropped by the date step. -/
theorem c3_conservation_nonnull (df : List Row) :
    (sumSnd (category_df df) =
        salesSum (df.filter (fun r => r.category.isSome)) ∧
     sumSnd (region_sum df) =
        salesSum (df.filter (fun r => r.region.isSome)) ∧
     sumSnd (linechart df) =
        salesSum (df.filter (fun r => r.order_date.isSome))) ∧
    (∀ d1 d2 out R S C, dateFilter df d1 d2 = Except.ok out →
      sumSnd (linechart (filtered_df out R S C)) =
        salesSum (filtered_df out R S C)) := by
  refine ⟨⟨groupSum_total _ df, groupSum_total _ df, linechart_total df⟩, ?_⟩
  intro d1 d2 out R S C hok
  rw [linechart_total]
  refine congrArg salesSum (List.filter_eq_self.mpr ?_)
  intro r hr
  rw [filtered_df_eq_ref] at hr
  obtain ⟨-, d, hd, -, -⟩ := (dateFilter_ok_iff hok r).mp (mem_refFilter.mp hr).1
  rw [hd]
  rfl

theorem c3_witness :
    sumSnd (linechart (filtered_df sampleDf ["East"] [] [])) =
      salesSum (filtered_df sampleDf ["East"] [] []) :=
  (c3_conservation_nonnull sampleDf).2 ⟨2024, 1, 1⟩ ⟨2024, 12, 31⟩ sampleDf
    ["East"] [] [] (by rfl)

def c4rowStart : Row :=
  ⟨some ⟨2024, 1, 10⟩, some "East", some "NY", some "NYC", some "Tech", 1⟩

def c4rowEnd : Row :=
  ⟨some ⟨2024, 1, 20⟩, some "East", some "NY", some "NYC", some "Tech", 2⟩

def c4rowBefore : Row :=
  ⟨some ⟨2024, 1, 9⟩, some "East", some "NY", some "NYC", some "Tech", 3⟩

def c4rowAfter : Row :=
  ⟨some ⟨2024, 1, 21⟩, some "East", some "NY", some "NYC", some "Tech", 4⟩

def c4rowNaT : Row :=
  ⟨none, some "East", some "NY", some "NYC", some "Tech", 5⟩

def c4df : List Row := [c4rowStart, c4rowEnd, c4rowBefore, c4rowAfter, c4rowNaT]

def c4out : List Row := [c4rowStart, c4rowEnd]

/-- C4: the date-range step includes rows dated exactly at either bound,
excludes rows outside the bounds (in particular one day outside), never
matches rows whose order date failed to parse (they are dropped before the
comparison), and when start is after end it fails with InvalidRange and the
pipeline halts with that error instead of swapping the bounds. -/
theorem c4_date_range_spec (df : List Row) (d1 d2 : Date) :
    (Date.blt d2 d1 = true →
      dateFilter df d1 d2 = Except.error DashError.invalidRange ∧
      ∀ columns R S C, validateColumns columns = Except.ok () →
        pipeline columns df d1 d2 R S C =
          Except.error DashError.invalidRange) ∧
    (∀ out, dateFilter df d1 d2 = Except.ok out → ∀ r,
      r ∈ out ↔ r ∈ df ∧ ∃ d, r.order_date = some d ∧
        Date.ble d1 d = true ∧ Date.ble d d2 = true) := by
  constructor
  · intro hgt
    have herr : dateFilter df d1 d2 = Except.error DashError.invalidRange :=
      dateFilter_gt hgt
    exact ⟨herr, fun columns R S C hv => pipeline_date_error hv herr R S C⟩
  · intro out hok r
    exact dateFilter_ok_iff hok r

theorem c4_witness :
    dateFilter c4df ⟨2024, 1, 20⟩ ⟨2024, 1, 10⟩ =
        Except.error DashError.invalidRange ∧
    (c4rowStart ∈ c4out ↔ c4rowStart ∈ c4df ∧
      ∃ d, c4rowStart.order_date = some d ∧
        Date.ble ⟨2024, 1, 10⟩ d = true ∧ Date.ble d ⟨2024, 1, 20⟩ = true) ∧
    dateFilter c4df ⟨2024, 1, 10⟩ ⟨2024, 1, 20⟩ = Except.ok c4out ∧
    c4rowStart ∈ c4out ∧ c4rowEnd ∈ c4out ∧
    c4rowBefore ∉ c4out ∧ c4rowAfter ∉ c4out ∧ c4rowNaT ∉ c4out :=
  ⟨((c4_date_range_spec c4df ⟨2024, 1, 20⟩ ⟨2024, 1, 10⟩).1 (by decide)).1,
   (c4_date_range_spec c4df ⟨2024, 1, 10⟩ ⟨2024, 1, 20⟩).2 c4out (by rfl) c4rowStart,
   by rfl, by decide, by decide, by decide, by decide, by decide⟩

/-- C5: when required columns are absent, validation fails with an error
naming exactly the absent required columns and the pipeline halts with that
error; when only Sales is absent the error names exactly ["Sales"]. -/
theorem c5_missing_columns_spec :
    (∀ columns : List String, (∃ c ∈ required_cols, c ∉ columns) →
      validateColumns columns =
        Except.error (DashError.missingColumns (missingCols columns)) ∧
      (∀ c, c ∈ missingCols columns ↔ c ∈ required_cols ∧ c ∉ columns) ∧
      ∀ df d1 d2 R S C, pipeline columns df d1 d2 R S C =
        Except.error (DashError.missingColumns (missingCols columns))) ∧
    missingCols ["Order Date", "Region", "State", "City", "Category"] =
      ["Sales"] := by
  refine ⟨?_, by decide⟩
  intro columns ⟨c, hc, hnc⟩
  have hmem : c ∈ missingCols columns := mem_missingCols.mpr ⟨hc, hnc⟩
  have hne : (missingCols columns).isEmpty = false := by
    cases hmc : missingCols columns with
    | nil => rw [hmc] at hmem; cases hmem
    | cons a l => rfl
  have hv : validateColumns columns =
      Except.error (DashError.missingColumns (missingCols columns)) := by
    rw [validateColumns, hne]
    rfl
  exact ⟨hv, fun c => mem_missingCols,
    fun df d1 d2 R S C => pipeline_column_error hv df d1 d2 R S C⟩

theorem c5_witness :
    validateColumns ["Order Date", "Region", "State", "City", "Category"] =
      Except.error (DashError.missingColumns
        (missingCols ["Order Date", "Region", "State", "City", "Category"])) ∧
    missingCols ["Order Date", "Region", "State", "City", "Category"] =
      ["Sales"] :=
  ⟨(c5_missing_columns_spec.1
      ["Order Date", "Region", "State", "City", "Category"]
      ⟨"Sales", by decide, by decide⟩).1,
   c5_missing_columns_spec.2⟩

theorem df2_eq_refFilter (df : List Row) (R : List String) :
    df2 df R = refFilter df R [] [] := by
  rw [df2_eq, refFilter]
  apply List.filter_congr
  intro r _
  cases R.isEmpty <;> cases isin R r.region <;> rfl

theorem df3_eq_refFilter (df : List Row) (R S : List String) :
    df3 df R S = refFilter df R S [] := by
  rw [df3_eq, refFilter]
  apply List.filter_congr
  intro r _
  cases R.isEmpty <;> cases isin R r.region <;>
    cases S.isEmpty <;> cases isin S r.state <;> rfl

/-- C6: the State candidate list is exactly the distinct non-null state
values of the dataset after applying only the Region selection, and the City
candidate list exactly the distinct non-null city values after applying the
Region and State selections; neither list depends on the City selection. -/
theorem c6_candidate_lists (df : List Row) (R S : List String) :
    ((stateOptions df R).Nodup ∧
      ∀ v, v ∈ stateOptions df R ↔
        ∃ r, r ∈ refFilter df R [] [] ∧ r.state = some v) ∧
    ((cityOptions df R S).Nodup ∧
      ∀ v, v ∈ cityOptions df R S ↔
        ∃ r, r ∈ refFilter df R S [] ∧ r.city = some v) := by
  constructor
  · refine ⟨nodup_sortStrings (List.nodup_dedup _), fun v => ?_⟩
    rw [stateOptions, mem_sortStrings, List.mem_dedup, List.mem_filterMap,
      df2_eq_refFilter]
  · refine ⟨nodup_sortStrings (List.nodup_dedup _), fun v => ?_⟩
    rw [cityOptions, mem_sortStrings, List.mem_dedup, List.mem_filterMap,
      df3_eq_refFilter]

theorem c6_witness :
    "NY" ∈ stateOptions sampleDf ["East"] ∧
    "NYC" ∈ cityOptions sampleDf ["East"] ["NY"] :=
  ⟨((c6_candidate_lists sampleDf ["East"] []).1.2 "NY").mpr
      ⟨sampleRow1, by decide, by decide⟩,
   ((c6_candidate_lists sampleDf ["East"] ["NY"]).2.2 "NYC").mpr
      ⟨sampleRow1, by decide, by decide⟩⟩

/-- C10: rows whose grouping key is null are silently omitted from the
matching aggregation view: removing them changes neither the Category view
nor the Region view, every group row's key is witnessed by an actual non-null
value in the data (so no null-keyed group row exists), and each group's sum
counts exactly the rows carrying that key — a null-keyed row's sales enter no
group's sum. -/
theorem c10_null_keys_omitted (df : List Row) :
    category_df (df.filter (fun r => r.category.isSome)) = category_df df ∧
    region_sum (df.filter (fun r => r.region.isSome)) = region_sum df ∧
    (∀ k s, (k, s) ∈ category_df df →
      (∃ r ∈ df, r.category = some k) ∧
      s = salesSum (df.filter (fun r => decide (r.category = some k)))) ∧
    (∀ k s, (k, s) ∈ region_sum df →
      (∃ r ∈ df, r.region = some k) ∧
      s = salesSum (df.filter (fun r => decide (r.region = some k)))) := by
  refine ⟨groupSum_drop_null_keys Row.category df,
    groupSum_drop_null_keys Row.region df, ?_, ?_⟩ <;>
  · intro k s hks
    simp only [category_df, region_sum, groupSum] at hks
    obtain ⟨a, ha, heq⟩ := List.mem_map.mp hks
    have h1 : a = k := congrArg Prod.fst heq
    have h2 := congrArg Prod.snd heq
    subst h1
    obtain ⟨r, hr, hk⟩ := mem_groupKeys.mp ha
    exact ⟨⟨r, hr, hk⟩, h2.symm⟩

theorem c10_witness :
    ((∃ r ∈ sampleDf, r.category = some "Tech") ∧
      250 = salesSum (sampleDf.filter (fun r => decide (r.category = some "Tech")))) ∧
    category_df [nullCatRow] = [] ∧
    region_sum (filtered_df [nullCatRow] [] [] []) = [("East", 100)] :=
  ⟨(c10_null_keys_omitted sampleDf).2.2.1 "Tech" 250 (by decide),
   by decide, by decide⟩
